import Mathlib

/-!
Shallow embedding of the clipberry trust-and-transport engine:
the content-addressed clipboard ledger (`ClipboardDatabase`), the pairing
token manager (`PairingManager`), certificate initialization
(`SecurityManager.initialize`), the WebSocket session table and broadcast
(`WebSocketServer`), and the sync orchestrator (`ClipboardSyncService`).
Python dictionaries are modelled as association lists, SQLite tables as
lists of rows with explicit uniqueness checks, wall-clock time as an
explicit `Int` parameter, and the random token generator as an explicit
`String` parameter.
-/

set_option autoImplicit false

/-- Clipboard item model (`ClipboardItem` pydantic model in
`clipberry/storage/__init__.py`).  `metadata` is kept as an opaque
association list of strings; timestamps are integers. -/
structure ClipboardItem where
  id : String
  type : String
  content_hash : String
  origin_device_id : String
  timestamp : Int
  size : Nat
  metadata : List (String × String)
  text_content : Option String
  blob_path : Option String
deriving DecidableEq

/-- Trusted device model (`Device` pydantic model). -/
structure Device where
  id : String
  name : String
  certificate_fingerprint : String
  added_timestamp : Int
  last_seen_timestamp : Option Int
  is_trusted : Bool
  capabilities : List (String × Bool)
deriving DecidableEq

/-- A row of the `clipboard_items` table: the item's fields plus the
`created_at` column filled from `utc_timestamp()` at insert time. -/
structure StoredItem where
  item : ClipboardItem
  created_at : Int
deriving DecidableEq

/-- State of `ClipboardDatabase`: whether `self._conn` is set, plus the
rows of the two tables, in insertion order. -/
structure DbState where
  conn : Bool
  items : List StoredItem
  devices : List Device
deriving DecidableEq

/-- `INSERT` uniqueness check for the `id TEXT PRIMARY KEY` column. -/
def idConflict (items : List StoredItem) (i : String) : Bool :=
  items.any fun r => r.item.id == i

/-- `INSERT` uniqueness check for the `UNIQUE(content_hash)` constraint. -/
def hashConflict (items : List StoredItem) (h : String) : Bool :=
  items.any fun r => r.item.content_hash == h

/-- `ClipboardDatabase.add_item`: returns `false` without mutating when
the connection is absent, or when the insert raises `IntegrityError`
(duplicate primary key `id` or duplicate `content_hash`); otherwise
appends the row (with `created_at := now`) and returns `true`. -/
def add_item (st : DbState) (item : ClipboardItem) (now : Int) : Bool × DbState :=
  if !st.conn then (false, st)
  else if idConflict st.items item.id || hashConflict st.items item.content_hash then
    (false, st)
  else
    (true, { st with items := st.items ++ [⟨item, now⟩] })

/-- `ClipboardDatabase.get_item_by_hash`: `None` when disconnected,
otherwise the first row whose `content_hash` matches, reconstructed as a
`ClipboardItem` (the `created_at` column is not selected). -/
def get_item_by_hash (st : DbState) (h : String) : Option ClipboardItem :=
  if !st.conn then none
  else ((st.items.find? fun r => r.item.content_hash == h).map fun r => r.item)

/-- Insertion sort step for ordering rows by `timestamp` descending. -/
def insertByTsDesc (r : StoredItem) : List StoredItem → List StoredItem
  | [] => [r]
  | x :: xs =>
    if x.item.timestamp ≤ r.item.timestamp then r :: x :: xs
    else x :: insertByTsDesc r xs

/-- `ORDER BY timestamp DESC` over the `clipboard_items` rows. -/
def sortByTsDesc : List StoredItem → List StoredItem
  | [] => []
  | x :: xs => insertByTsDesc x (sortByTsDesc xs)

/-- `ClipboardDatabase.get_recent_items`: empty when disconnected,
otherwise rows ordered by timestamp descending, truncated to `limit`. -/
def get_recent_items (st : DbState) (limit : Nat) : List ClipboardItem :=
  if !st.conn then []
  else ((sortByTsDesc st.items).take limit).map fun r => r.item

/-- `ClipboardDatabase.add_device` (`INSERT OR REPLACE` keyed on `id`):
no-op when disconnected, otherwise any existing row with the same id is
replaced by the new one. -/
def add_device (st : DbState) (d : Device) : DbState :=
  if !st.conn then st
  else { st with devices := (st.devices.filter fun x => x.id != d.id) ++ [d] }

/-- `ClipboardDatabase.get_device`: `None` when disconnected, otherwise
the first `devices` row with the given id. -/
def get_device (st : DbState) (device_id : String) : Option Device :=
  if !st.conn then none
  else st.devices.find? fun x => x.id == device_id

/-- Insertion sort step for ordering devices by `added_timestamp`
descending. -/
def insertByAddedDesc (d : Device) : List Device → List Device
  | [] => [d]
  | x :: xs =>
    if x.added_timestamp ≤ d.added_timestamp then d :: x :: xs
    else x :: insertByAddedDesc d xs

/-- `ORDER BY added_timestamp DESC` over the `devices` rows. -/
def sortByAddedDesc : List Device → List Device
  | [] => []
  | x :: xs => insertByAddedDesc x (sortByAddedDesc xs)

/-- `ClipboardDatabase.get_all_devices`: empty when disconnected,
otherwise all devices ordered by `added_timestamp` descending. -/
def get_all_devices (st : DbState) : List Device :=
  if !st.conn then [] else sortByAddedDesc st.devices

/-- `ClipboardDatabase.update_device_last_seen` (`UPDATE devices SET
last_seen_timestamp = ? WHERE id = ?`): no-op when disconnected. -/
def update_device_last_seen (st : DbState) (device_id : String) (ts : Int) : DbState :=
  if !st.conn then st
  else
    { st with
      devices := st.devices.map fun x =>
        if x.id == device_id then { x with last_seen_timestamp := some ts } else x }

/-- `ClipboardDatabase.revoke_device` (`UPDATE devices SET is_trusted = 0
WHERE id = ?`): no-op when disconnected. -/
def revoke_device (st : DbState) (device_id : String) : DbState :=
  if !st.conn then st
  else
    { st with
      devices := st.devices.map fun x =>
        if x.id == device_id then { x with is_trusted := false } else x }

/-- `ClipboardDatabase.clear_clipboard_history` (`DELETE FROM
clipboard_items`): no-op when disconnected. -/
def clear_clipboard_history (st : DbState) : DbState :=
  if !st.conn then st else { st with items := [] }

/-! ## Pairing (`clibpard/security/pairing.py`) -/

/-- `PairingToken` dataclass. -/
structure PairingToken where
  token : String
  created_at : Int
  expires_at : Int
  device_id : String
  device_name : String
deriving DecidableEq

/-- The `PairingManager._active_tokens` dict, token string to record. -/
abbrev TokenMap := List (String × PairingToken)

/-- Dict lookup `m[k]` / `k in m` on an association list. -/
def dictLookup {β : Type} (m : List (String × β)) (k : String) : Option β :=
  (m.find? fun e => e.1 == k).map fun e => e.2

/-- Dict deletion `del m[k]` (also `m.pop(k, None)`). -/
def dictErase {β : Type} (m : List (String × β)) (k : String) : List (String × β) :=
  m.filter fun e => e.1 != k

/-- Dict assignment `m[k] = v` (overwrites any existing binding). -/
def dictInsert {β : Type} (m : List (String × β)) (k : String) (v : β) :
    List (String × β) :=
  dictErase m k ++ [(k, v)]

/-- State of a `PairingManager`. -/
structure PairingManager where
  device_id : String
  device_name : String
  active_tokens : TokenMap
deriving DecidableEq

/-- `PairingManager.generate_token`: the freshly drawn random token
string `tok` and the current time `now` are explicit parameters;
records the token as active with `expires_at = now + ttl_seconds`
(default `ttl_seconds` is 300) and returns it. -/
def generate_token (pm : PairingManager) (tok : String) (now ttl_seconds : Int) :
    String × PairingManager :=
  let pt : PairingToken :=
    ⟨tok, now, now + ttl_seconds, pm.device_id, pm.device_name⟩
  (tok, { pm with active_tokens := dictInsert pm.active_tokens tok pt })

/-- `PairingManager.validate_token`: `false` when the token is not in
the active dict; when present but `now > expires_at` the token is
deleted and the result is `false`; otherwise `true`. -/
def validate_token (pm : PairingManager) (tok : String) (now : Int) :
    Bool × PairingManager :=
  match dictLookup pm.active_tokens tok with
  | none => (false, pm)
  | some pt =>
    if pt.expires_at < now then
      (false, { pm with active_tokens := dictErase pm.active_tokens tok })
    else (true, pm)

/-- `PairingManager.consume_token`: validates, then deletes on success. -/
def consume_token (pm : PairingManager) (tok : String) (now : Int) :
    Bool × PairingManager :=
  let r := validate_token pm tok now
  if r.1 then
    (true, { r.2 with active_tokens := dictErase r.2.active_tokens tok })
  else (false, r.2)

/-- `PairingManager.get_active_tokens`: tokens with `expires_at > now`. -/
def get_active_tokens (pm : PairingManager) (now : Int) : List PairingToken :=
  (pm.active_tokens.map fun e => e.2).filter fun pt => now < pt.expires_at

/-- One round of `PairingManager._cleanup_expired_tokens`: removes every
entry with `expires_at <= now`. -/
def cleanup_expired_tokens (pm : PairingManager) (now : Int) : PairingManager :=
  { pm with active_tokens := pm.active_tokens.filter fun e => now < e.2.expires_at }

/-! ## Identity (`SecurityManager.initialize` in `clibpard/security/__init__.py`) -/

/-- Observable state of the persisted key material: whether
`cert_dir/device.crt` and `cert_dir/device.key` exist, and whether each
parses when loaded (`load_certificate` / `load_private_key` raise on a
corrupt or unreadable file). -/
structure KeyStore where
  cert_exists : Bool
  key_exists : Bool
  cert_readable : Bool
  key_readable : Bool
deriving DecidableEq

/-- Outcome of `SecurityManager.initialize`. -/
inductive InitResult where
  /-- Both files were present and parsed; the existing material and its
  fingerprint are kept. -/
  | loaded : InitResult
  /-- A load raised; the exception propagates out of `initialize`. -/
  | fatalError : InitResult
  /-- `generate_self_signed_cert` ran: fresh certificate and key were
  created and written over `cert_path` and `key_path`, yielding a new
  fingerprint. -/
  | generated : InitResult
deriving DecidableEq

/-- `SecurityManager.initialize`: when `cert_path.exists() and
key_path.exists()` it loads both (raising on corrupt material);
otherwise it generates fresh self-signed material. -/
def SecurityManager.initialize (fs : KeyStore) : InitResult :=
  if fs.cert_exists && fs.key_exists then
    if fs.cert_readable && fs.key_readable then .loaded else .fatalError
  else .generated

/-! ## Transport sessions (`clibpard/networking/websocket.py`) -/

/-- The `WebSocketServer._connections` dict: peer device_id to the live
websocket connection, identified here by a numeric handle. -/
abbrev SessionTable := List (String × Nat)

/-- Lookup of a peer's current connection in the session table. -/
def sessionLookup (tbl : SessionTable) (peer : String) : Option Nat :=
  dictLookup tbl peer

/-- The HELLO step of `WebSocketServer._handle_connection`: on receipt of
the peer's HELLO, `self._connections[peer_device_id] = websocket`
(overwriting any existing session for that peer). -/
def handleHello (tbl : SessionTable) (peer : String) (conn : Nat) : SessionTable :=
  dictInsert tbl peer conn

/-- The `finally` block of `WebSocketServer._handle_connection`: when a
receive loop terminates, `self._connections.pop(peer_device_id, None)` —
removal is keyed by device_id only, with no check that the entry still
belongs to the terminating connection. -/
def connectionCleanup (tbl : SessionTable) (peer : String) : SessionTable :=
  dictErase tbl peer

/-- One open session as seen by `broadcast_item`: the peer's device_id
and whether `ws.send` succeeds for it (an exception is modelled as
`sendOk = false`). -/
structure BroadcastSession where
  peer : String
  sendOk : Bool
deriving DecidableEq

/-- The send loop of `WebSocketServer.broadcast_item`: each send is
wrapped in its own `try/except`, so a failed send is logged and the loop
continues; the result is the list of peers that received the message,
in table order. -/
def broadcastLoop : List BroadcastSession → List String
  | [] => []
  | s :: rest =>
    if s.sendOk then s.peer :: broadcastLoop rest else broadcastLoop rest

/-! ## Sync orchestration (`clibpard/core/__init__.py`) -/

/-- The configuration fields `_on_clipboard_captured` and
`_on_item_received` consult (`AppConfig` in `clibpard/utils/config.py`). -/
structure SyncConfig where
  sync_text : Bool
  sync_images : Bool
  max_item_size : Nat
deriving DecidableEq

/-- A write performed against the local clipboard
(`ClipboardMonitor.set_clipboard_text` / `set_clipboard_image`). -/
inductive ClipWrite where
  | text : String → ClipWrite
  | image : String → ClipWrite
deriving DecidableEq

/-- Observable effects of one orchestrator handler invocation. -/
structure Effects where
  /-- Whether `database.add_item` was invoked. -/
  addItemCalled : Bool
  /-- Device ids of the sessions `broadcast_item` attempted to send to. -/
  broadcastTo : List String
  /-- Device ids of the sessions whose send succeeded. -/
  delivered : List String
  /-- The local clipboard write performed, if any. -/
  clipboardWrite : Option ClipWrite
deriving DecidableEq

/-- No observable effect. -/
def Effects.nil : Effects := ⟨false, [], [], none⟩

/-- State of `ClipboardSyncService` as the two item handlers see it. -/
structure ServiceState where
  sync_enabled : Bool
  config : SyncConfig
  db : DbState
  /-- `ws_server._connections`, with each session's send outcome. -/
  sessions : List BroadcastSession
  /-- Whether `self.ws_server` is set. -/
  has_server : Bool
  /-- `ClipboardMonitor._ignore_next`. -/
  ignore_next : Bool
deriving DecidableEq

/-- Python truthiness of an `Optional[str]` field (`None` and the empty
string are falsy). -/
def truthyStr : Option String → Bool
  | none => false
  | some s => s != ""

/-- `ClipboardSyncService._on_clipboard_captured`: drops the item when
sync is disabled, when `item.size > max_item_size`, or when its type is
filtered out; otherwise stores it, and on first insertion broadcasts to
every open session of `ws_server` (when present). -/
def on_clipboard_captured (st : ServiceState) (item : ClipboardItem) (now : Int) :
    ServiceState × Effects :=
  if !st.sync_enabled then (st, Effects.nil)
  else if st.config.max_item_size < item.size then (st, Effects.nil)
  else if item.type == "text" && !st.config.sync_text then (st, Effects.nil)
  else if item.type == "image" && !st.config.sync_images then (st, Effects.nil)
  else if !(add_item st.db item now).1 then
    ({ st with db := (add_item st.db item now).2 },
      { Effects.nil with addItemCalled := true })
  else
    ({ st with db := (add_item st.db item now).2 },
      { addItemCalled := true
        broadcastTo := if st.has_server then st.sessions.map BroadcastSession.peer else []
        delivered := if st.has_server then broadcastLoop st.sessions else []
        clipboardWrite := none })

/-- `ClipboardSyncService._on_item_received`: drops the item when sync
is disabled, when the sender is unknown or untrusted, or when its type is
filtered out; otherwise stores it; on first insertion it updates the
sender's last-seen timestamp and applies the item to the local clipboard
under the ignore-next flag.  It performs no rebroadcast. -/
def on_item_received (st : ServiceState) (item : ClipboardItem)
    (peer_device_id : String) (now : Int) : ServiceState × Effects :=
  if !st.sync_enabled then (st, Effects.nil)
  else
    match get_device st.db peer_device_id with
    | none => (st, Effects.nil)
    | some dev =>
      if !dev.is_trusted then (st, Effects.nil)
      else if item.type == "text" && !st.config.sync_text then (st, Effects.nil)
      else if item.type == "image" && !st.config.sync_images then (st, Effects.nil)
      else if !(add_item st.db item now).1 then
        ({ st with db := (add_item st.db item now).2 },
          { Effects.nil with addItemCalled := true })
      else if item.type == "text" && truthyStr item.text_content then
        ({ st with
            db := update_device_last_seen (add_item st.db item now).2 peer_device_id now
            ignore_next := true },
          { addItemCalled := true, broadcastTo := [], delivered := []
            clipboardWrite := some (ClipWrite.text (item.text_content.getD "")) })
      else if item.type == "image" && truthyStr item.blob_path then
        ({ st with
            db := update_device_last_seen (add_item st.db item now).2 peer_device_id now
            ignore_next := true },
          { addItemCalled := true, broadcastTo := [], delivered := []
            clipboardWrite := some (ClipWrite.image (item.blob_path.getD "")) })
      else
        ({ st with
            db := update_device_last_seen (add_item st.db item now).2 peer_device_id now },
          { Effects.nil with addItemCalled := true })

/-! ## Shared list-level helper lemmas -/

theorem find?_append_left_none {α : Type} (p : α → Bool) (l1 l2 : List α)
    (h : l1.find? p = none) : (l1 ++ l2).find? p = l2.find? p := by
  induction l1 with
  | nil => simp
  | cons x xs ih =>
    rcases hx : p x with _ | _
    · have hx2 : ¬ p x = true := by simp [hx]
      rw [List.cons_append, List.find?_cons_of_neg _ hx2]
      rw [List.find?_cons_of_neg _ hx2] at h
      exact ih h
    · rw [List.find?_cons_of_pos _ hx] at h
      exact absurd h (by simp)

theorem find?_eq_none_of_any_eq_false {α : Type} (p : α → Bool) (l : List α)
    (h : l.any p = false) : l.find? p = none := by
  rw [List.find?_eq_none]
  intro x hx
  rw [List.any_eq_false] at h
  exact h x hx

theorem dictLookup_erase_self {β : Type} (m : List (String × β)) (k : String) :
    dictLookup (dictErase m k) k = none := by
  have h : ((m.filter fun e => e.1 != k).find? fun e => e.1 == k) = none := by
    rw [List.find?_eq_none]
    intro x hx
    rw [List.mem_filter] at hx
    simpa using hx.2
  simp [dictLookup, dictErase, h]

theorem dictLookup_cons {β : Type} (x : String × β) (l : List (String × β)) (q : String) :
    dictLookup (x :: l) q = if x.1 = q then some x.2 else dictLookup l q := by
  by_cases hb : x.1 = q
  · rw [if_pos hb]
    unfold dictLookup
    rw [List.find?_cons_of_pos]
    · simp
    · simp [hb]
  · rw [if_neg hb]
    unfold dictLookup
    rw [List.find?_cons_of_neg]
    simp [hb]

theorem dictLookup_erase_ne {β : Type} (m : List (String × β)) (k q : String)
    (h : q ≠ k) : dictLookup (dictErase m k) q = dictLookup m q := by
  induction m with
  | nil => rfl
  | cons x xs ih =>
    rw [dictLookup_cons]
    by_cases hx : x.1 = k
    · rw [if_neg fun e => h (e.symm.trans hx)]
      have hcond : (x.1 != k) = false := by simp [hx]
      simp only [dictErase, List.filter_cons, hcond, Bool.false_eq_true, if_false]
      exact ih
    · have hcond : (x.1 != k) = true := by simp [hx]
      simp only [dictErase, List.filter_cons, hcond, if_true]
      rw [dictLookup_cons]
      by_cases hq : x.1 = q
      · rw [if_pos hq, if_pos hq]
      · rw [if_neg hq, if_neg hq]
        exact ih

theorem dictLookup_insert_self {β : Type} (m : List (String × β)) (k : String) (v : β) :
    dictLookup (dictInsert m k v) k = some v := by
  have h : ((m.filter fun e => e.1 != k).find? fun e => e.1 == k) = none := by
    rw [List.find?_eq_none]
    intro x hx
    rw [List.mem_filter] at hx
    simpa using hx.2
  simp [dictLookup, dictInsert, dictErase, h]

theorem dictLookup_insert_ne {β : Type} (m : List (String × β)) (k q : String) (v : β)
    (h : q ≠ k) : dictLookup (dictInsert m k v) q = dictLookup m q := by
  have h2 : ((k, v).1 == q) = false := by
    simp only [beq_eq_false_iff_ne]
    exact fun e => h e.symm
  have step : dictLookup (dictInsert m k v) q = dictLookup (dictErase m k) q := by
    simp [dictLookup, dictInsert, List.find?_append, h2, Option.or_none]
  rw [step, dictLookup_erase_ne m k q h]

/-- Keys of an association list are pairwise distinct. -/
def KeysNodup {β : Type} (m : List (String × β)) : Prop :=
  m.Pairwise fun a b => a.1 ≠ b.1

theorem keysNodup_erase {β : Type} (m : List (String × β)) (k : String)
    (h : KeysNodup m) : KeysNodup (dictErase m k) :=
  h.sublist (List.filter_sublist m)

theorem keysNodup_insert {β : Type} (m : List (String × β)) (k : String) (v : β)
    (h : KeysNodup m) : KeysNodup (dictInsert m k v) := by
  unfold KeysNodup dictInsert
  rw [List.pairwise_append]
  refine ⟨keysNodup_erase m k h, List.pairwise_singleton _ _, ?_⟩
  intro a ha b hb
  rw [List.mem_singleton] at hb
  rw [dictErase, List.mem_filter] at ha
  subst hb
  simpa using ha.2

/-! ## Concrete example values used by witnesses and counterexamples -/

/-- A sample text clipboard item. -/
def exItem1 : ClipboardItem :=
  { id := "item-1", type := "text", content_hash := "h1"
    origin_device_id := "devA", timestamp := 10, size := 5
    metadata := [], text_content := some "hello", blob_path := none }

/-- A second item carrying the same `content_hash` as `exItem1` but
differing in every other field. -/
def exItem2 : ClipboardItem :=
  { id := "item-2", type := "text", content_hash := "h1"
    origin_device_id := "devB", timestamp := 20, size := 5
    metadata := [("k", "v")], text_content := some "hello", blob_path := none }

/-- A connected, empty database. -/
def exDb0 : DbState := { conn := true, items := [], devices := [] }

/-! ## C1 -/

/-- C1: with the ledger connected and the item's primary-key id fresh,
the first `add_item` call for a given `content_hash` returns `true` and
persists the item (it is retrievable by hash afterwards); every
subsequent `add_item` call with the same `content_hash`, whatever the
other fields of the later item, returns `false` and leaves the ledger
state — in particular the first-stored item — unchanged. -/
theorem addItem_at_most_once_per_hash (st : DbState) (item : ClipboardItem) (now : Int)
    (hconn : st.conn = true)
    (hid : idConflict st.items item.id = false)
    (hhash : hashConflict st.items item.content_hash = false) :
    (add_item st item now).1 = true ∧
    get_item_by_hash (add_item st item now).2 item.content_hash = some item ∧
    (∀ item2 : ClipboardItem, ∀ now2 : Int,
      item2.content_hash = item.content_hash →
      add_item (add_item st item now).2 item2 now2 =
        (false, (add_item st item now).2)) := by
  have hins : add_item st item now =
      (true, { st with items := st.items ++ [⟨item, now⟩] }) := by
    simp [add_item, hconn, hid, hhash]
  refine ⟨by rw [hins], ?_, ?_⟩
  · rw [hins]
    have hfind : (st.items.find? fun r => r.item.content_hash == item.content_hash)
        = none :=
      find?_eq_none_of_any_eq_false _ _ hhash
    simp only [get_item_by_hash, hconn, Bool.not_true, Bool.false_eq_true, if_false]
    rw [find?_append_left_none _ _ _ hfind]
    simp
  · intro item2 now2 h2
    rw [hins]
    have hdup : hashConflict (st.items ++ [⟨item, now⟩]) item2.content_hash = true := by
      simp [hashConflict, List.any_append, h2]
    simp [add_item, hconn, hdup]

/-- C1 witness: concrete first insertion succeeds and is retrievable; a
second item with the same hash is rejected without mutation. -/
theorem addItem_at_most_once_per_hash_witness :
    (add_item exDb0 exItem1 0).1 = true ∧
    get_item_by_hash (add_item exDb0 exItem1 0).2 exItem1.content_hash = some exItem1 ∧
    add_item (add_item exDb0 exItem1 0).2 exItem2 5 =
      (false, (add_item exDb0 exItem1 0).2) := by
  have h := addItem_at_most_once_per_hash exDb0 exItem1 0 rfl rfl rfl
  exact ⟨h.1, h.2.1, h.2.2 exItem2 5 rfl⟩

/-! ## C10 -/

/-- A sample trusted device record. -/
def exDevB : Device :=
  { id := "devB", name := "Device B", certificate_fingerprint := "fpB"
    added_timestamp := 1, last_seen_timestamp := none
    is_trusted := true, capabilities := [] }

/-- A database state whose connection is absent but whose tables still
hold rows. -/
def exDbDisc : DbState :=
  { conn := false, items := [⟨exItem1, 0⟩], devices := [exDevB] }

/-- C10: while the database connection is absent, every ledger operation
is a silent no-op: `add_item` returns `false` without mutating (the same
boolean a duplicate hash produces), the point lookups return nothing,
the listing operations return empty lists, and the mutating operations
leave the state unchanged. -/
theorem db_ops_noop_when_disconnected (st : DbState) (hconn : st.conn = false) :
    (∀ item : ClipboardItem, ∀ now : Int, add_item st item now = (false, st)) ∧
    (∀ h : String, get_item_by_hash st h = none) ∧
    (∀ limit : Nat, get_recent_items st limit = []) ∧
    (∀ did : String, get_device st did = none) ∧
    get_all_devices st = [] ∧
    (∀ d : Device, add_device st d = st) ∧
    (∀ did : String, ∀ ts : Int, update_device_last_seen st did ts = st) ∧
    (∀ did : String, revoke_device st did = st) ∧
    clear_clipboard_history st = st := by
  refine ⟨?_, ?_, ?_, ?_, ?_, ?_, ?_, ?_, ?_⟩ <;>
    simp [add_item, get_item_by_hash, get_recent_items, get_device,
      get_all_devices, add_device, update_device_last_seen, revoke_device,
      clear_clipboard_history, hconn]

/-- C10 witness: concrete disconnected database with rows present. -/
theorem db_ops_noop_when_disconnected_witness :
    add_item exDbDisc exItem2 3 = (false, exDbDisc) ∧
    get_item_by_hash exDbDisc "h1" = none ∧
    get_recent_items exDbDisc 10 = [] ∧
    get_device exDbDisc "devB" = none ∧
    get_all_devices exDbDisc = [] ∧
    update_device_last_seen exDbDisc "devB" 5 = exDbDisc ∧
    revoke_device exDbDisc "devB" = exDbDisc := by
  have h := db_ops_noop_when_disconnected exDbDisc rfl
  exact ⟨h.1 exItem2 3, h.2.1 "h1", h.2.2.1 10, h.2.2.2.1 "devB",
    h.2.2.2.2.1, h.2.2.2.2.2.2.1 "devB" 5, h.2.2.2.2.2.2.2.1 "devB"⟩

/-! ## C3 and C4 -/

/-- The token shown in spec Scenario 1, active from time 0 to 300. -/
def exToken : PairingToken :=
  { token := "7K3PQWXZ", created_at := 0, expires_at := 300
    device_id := "devA", device_name := "Device A" }

/-- A pairing manager holding exactly `exToken`. -/
def exPm : PairingManager :=
  { device_id := "devA", device_name := "Device A"
    active_tokens := [("7K3PQWXZ", exToken)] }

/-- C3: `consume_token` succeeds at most once per token: consuming a
present, unexpired token returns `true` and removes it; afterwards the
token is gone and any later consumption returns `false`; consuming a
token that is absent (never issued, or already consumed) returns
`false`; consuming a token past its expiry returns `false`. -/
theorem consumeToken_at_most_once (pm : PairingManager) (tok : String) (now : Int)
    (pt : PairingToken)
    (hlook : dictLookup pm.active_tokens tok = some pt)
    (hfresh : ¬ pt.expires_at < now) :
    (consume_token pm tok now).1 = true ∧
    dictLookup (consume_token pm tok now).2.active_tokens tok = none ∧
    (∀ now2 : Int, (consume_token (consume_token pm tok now).2 tok now2).1 = false) ∧
    (∀ pm2 : PairingManager, ∀ now2 : Int,
      dictLookup pm2.active_tokens tok = none →
      (consume_token pm2 tok now2).1 = false) ∧
    (∀ pm2 : PairingManager, ∀ pt2 : PairingToken, ∀ now2 : Int,
      dictLookup pm2.active_tokens tok = some pt2 → pt2.expires_at < now2 →
      (consume_token pm2 tok now2).1 = false) := by
  have hval : validate_token pm tok now = (true, pm) := by
    simp [validate_token, hlook, hfresh]
  have hcon : consume_token pm tok now =
      (true, { pm with active_tokens := dictErase pm.active_tokens tok }) := by
    simp [consume_token, hval]
  have habsent : ∀ pm2 : PairingManager, ∀ now2 : Int,
      dictLookup pm2.active_tokens tok = none →
      (consume_token pm2 tok now2).1 = false := by
    intro pm2 now2 hnone
    simp [consume_token, validate_token, hnone]
  refine ⟨by rw [hcon], ?_, ?_, habsent, ?_⟩
  · rw [hcon]
    exact dictLookup_erase_self _ _
  · intro now2
    apply habsent
    rw [hcon]
    exact dictLookup_erase_self _ _
  · intro pm2 pt2 now2 hl2 hexp
    simp [consume_token, validate_token, hl2, hexp]

/-- C3 witness: the concrete token of Scenario 1 is consumed once; the
second attempt fails; a never-issued token fails. -/
theorem consumeToken_at_most_once_witness :
    (consume_token exPm "7K3PQWXZ" 10).1 = true ∧
    (consume_token (consume_token exPm "7K3PQWXZ" 10).2 "7K3PQWXZ" 20).1 = false := by
  have h := consumeToken_at_most_once exPm "7K3PQWXZ" 10 exToken rfl (by decide)
  exact ⟨h.1, h.2.2.1 20⟩

/-- C4: `validate_token` returns `true` iff the token is in the active
set and the current time is not past its stored absolute expiry; a
present-but-expired token makes `validate_token` return `false` and
evicts the entry; `generate_token` records the absolute expiry
`created_at + ttl_seconds` for the token it stores. -/
theorem validateToken_spec (pm : PairingManager) (tok : String) (now : Int) :
    ((validate_token pm tok now).1 = true ↔
      ∃ pt : PairingToken, dictLookup pm.active_tokens tok = some pt ∧
        ¬ pt.expires_at < now) ∧
    (∀ pt : PairingToken, dictLookup pm.active_tokens tok = some pt →
      pt.expires_at < now →
      (validate_token pm tok now).1 = false ∧
      dictLookup (validate_token pm tok now).2.active_tokens tok = none) ∧
    (∀ t : String, ∀ created ttl : Int,
      dictLookup (generate_token pm t created ttl).2.active_tokens t =
        some ⟨t, created, created + ttl, pm.device_id, pm.device_name⟩) := by
  refine ⟨?_, ?_, ?_⟩
  · cases hl : dictLookup pm.active_tokens tok with
    | none => simp [validate_token, hl]
    | some pt =>
      by_cases hexp : pt.expires_at < now
      · simp [validate_token, hl, hexp]
      · simp [validate_token, hl, hexp]
        omega
  · intro pt hl hexp
    refine ⟨by simp [validate_token, hl, hexp], ?_⟩
    simp [validate_token, hl, hexp, dictLookup_erase_self]
  · intro t created ttl
    simp only [generate_token]
    exact dictLookup_insert_self _ _ _

/-- C4 witness: at time 301 the concrete token is expired, so validation
fails and evicts it; a generated token is stored with expiry
`created_at + ttl`. -/
theorem validateToken_spec_witness :
    (validate_token exPm "7K3PQWXZ" 301).1 = false ∧
    dictLookup (validate_token exPm "7K3PQWXZ" 301).2.active_tokens "7K3PQWXZ" = none ∧
    dictLookup (generate_token exPm "XM2RTQ4H" 100 300).2.active_tokens "XM2RTQ4H" =
      some ⟨"XM2RTQ4H", 100, 100 + 300, "devA", "Device A"⟩ := by
  have h := validateToken_spec exPm "7K3PQWXZ" 301
  have h2 := h.2.1 exToken rfl (by decide)
  exact ⟨h2.1, h2.2, h.2.2 "XM2RTQ4H" 100 300⟩

/-! ## C5 -/

/-- C5 (code bug): the claim — any state with the certificate or key
missing, corrupt, or unreadable is fatal and never silently regenerated —
fails on the code.  `SecurityManager.initialize` only raises when both
files exist and one fails to load; when exactly one of the two files is
missing it takes the generate branch and silently writes fresh key
material over the surviving file, which changes the fingerprint peers
have recorded. -/
theorem initialize_regen_on_partial_loss :
    SecurityManager.initialize ⟨true, false, true, true⟩ = InitResult.generated ∧
    SecurityManager.initialize ⟨false, true, true, true⟩ = InitResult.generated ∧
    SecurityManager.initialize ⟨true, true, false, true⟩ = InitResult.fatalError ∧
    SecurityManager.initialize ⟨true, true, true, false⟩ = InitResult.fatalError ∧
    SecurityManager.initialize ⟨true, true, true, true⟩ = InitResult.loaded := by
  exact ⟨rfl, rfl, rfl, rfl, rfl⟩

/-! ## C7 -/

/-- C7 counterexample: peer `peerB` connects (connection 1), then
reconnects (connection 2), so the newer connection supersedes the older
in the table.  When the older connection's receive loop then terminates,
its cleanup pops the `peerB` key unconditionally and the superseding
newer Session is removed too, leaving the table empty — the claim says
the newer Session must remain present. -/
theorem sessionCleanup_removes_superseding_session :
    handleHello (handleHello [] "peerB" 1) "peerB" 2 = [("peerB", 2)] ∧
    sessionLookup (handleHello (handleHello [] "peerB" 1) "peerB" 2) "peerB" = some 2 ∧
    connectionCleanup (handleHello (handleHello [] "peerB" 1) "peerB" 2) "peerB" = [] ∧
    sessionLookup
      (connectionCleanup (handleHello (handleHello [] "peerB" 1) "peerB" 2) "peerB")
      "peerB" = none := by
  refine ⟨by decide, by decide, by decide, by decide⟩

/-- C7 amended: the session table holds at most one entry per peer
device_id, and both the HELLO step and loop-termination cleanup preserve
this; a later HELLO from an already-connected peer replaces that peer's
entry with the new connection and leaves other peers' entries unchanged;
loop termination removes the entry currently stored for the
terminating loop's peer device_id unconditionally — even when that entry
is a superseding newer connection — while leaving other peers' entries
unchanged. -/
theorem sessionTable_per_peer_invariant (tbl : SessionTable) (peer q : String)
    (conn : Nat) (hnodup : KeysNodup tbl) :
    KeysNodup (handleHello tbl peer conn) ∧
    KeysNodup (connectionCleanup tbl peer) ∧
    sessionLookup (handleHello tbl peer conn) peer = some conn ∧
    (q ≠ peer → sessionLookup (handleHello tbl peer conn) q = sessionLookup tbl q) ∧
    sessionLookup (connectionCleanup tbl peer) peer = none ∧
    (q ≠ peer → sessionLookup (connectionCleanup tbl peer) q = sessionLookup tbl q) :=
  ⟨keysNodup_insert tbl peer conn hnodup,
    keysNodup_erase tbl peer hnodup,
    dictLookup_insert_self tbl peer conn,
    fun hq => dictLookup_insert_ne tbl peer q conn hq,
    dictLookup_erase_self tbl peer,
    fun hq => dictLookup_erase_ne tbl peer q hq⟩

/-- C7 witness: concrete two-peer table: a HELLO for `peerB` keeps
`peerC` intact, and cleanup of `peerB` removes only `peerB`. -/
theorem sessionTable_per_peer_invariant_witness :
    KeysNodup (handleHello [("peerC", 7)] "peerB" 1) ∧
    sessionLookup (handleHello [("peerC", 7)] "peerB" 1) "peerB" = some 1 ∧
    sessionLookup (handleHello [("peerC", 7)] "peerB" 1) "peerC" = some 7 ∧
    sessionLookup (connectionCleanup [("peerC", 7), ("peerB", 1)] "peerB") "peerB" = none ∧
    sessionLookup (connectionCleanup [("peerC", 7), ("peerB", 1)] "peerB") "peerC" = some 7 := by
  have h1 := sessionTable_per_peer_invariant [("peerC", 7)] "peerB" "peerC" 1
    (List.pairwise_singleton _ _)
  have h2 := sessionTable_per_peer_invariant [("peerC", 7), ("peerB", 1)] "peerB" "peerC" 1
    (by unfold KeysNodup; decide)
  refine ⟨h1.1, h1.2.2.1, ?_, h2.2.2.2.2.1, ?_⟩
  · rw [h1.2.2.2.1 (by decide)]
    decide
  · rw [h2.2.2.2.2.2 (by decide)]
    decide

/-! ## C8 -/

theorem length_filter_sendOk (sessions : List BroadcastSession) :
    (sessions.filter fun s => s.sendOk).length +
      (sessions.filter fun s => !s.sendOk).length = sessions.length := by
  induction sessions with
  | nil => rfl
  | cons s rest ih =>
    by_cases hs : s.sendOk = true <;> simp [List.filter_cons, hs] <;> omega

theorem broadcastLoop_eq_filter_map (sessions : List BroadcastSession) :
    broadcastLoop sessions = (sessions.filter fun s => s.sendOk).map fun s => s.peer := by
  induction sessions with
  | nil => rfl
  | cons s rest ih =>
    by_cases hs : s.sendOk = true <;> simp [broadcastLoop, List.filter_cons, hs, ih]

/-- C8: broadcast partial-failure isolation: over any session list in
which the send to exactly one session raises, the per-session
`try/except` in `broadcast_item` confines the failure: the message is
still delivered to each of the remaining N−1 sessions. -/
theorem broadcast_partial_failure_isolation (sessions : List BroadcastSession)
    (hone : (sessions.filter fun s => !s.sendOk).length = 1) :
    (broadcastLoop sessions).length = sessions.length - 1 ∧
    (∀ s ∈ sessions, s.sendOk = true → s.peer ∈ broadcastLoop sessions) := by
  constructor
  · rw [broadcastLoop_eq_filter_map, List.length_map]
    have hsum := length_filter_sendOk sessions
    omega
  · intro s hs hok
    rw [broadcastLoop_eq_filter_map]
    exact List.mem_map_of_mem _ (List.mem_filter.mpr ⟨hs, hok⟩)

/-- Three open sessions of which exactly the middle one's send fails. -/
def exSessions : List BroadcastSession :=
  [⟨"peerA", true⟩, ⟨"peerB", false⟩, ⟨"peerC", true⟩]

/-- C8 witness: with three sessions and one failing send, the other two
peers still receive the message. -/
theorem broadcast_partial_failure_isolation_witness :
    (broadcastLoop exSessions).length = 2 ∧
    "peerA" ∈ broadcastLoop exSessions ∧
    "peerC" ∈ broadcastLoop exSessions := by
  have h := broadcast_partial_failure_isolation exSessions (by decide)
  exact ⟨h.1, h.2 ⟨"peerA", true⟩ (by decide) rfl, h.2 ⟨"peerC", true⟩ (by decide) rfl⟩

/-! ## Orchestrator helper lemmas -/

theorem add_item_false_state (st : DbState) (item : ClipboardItem) (now : Int)
    (h : (add_item st item now).1 = false) : (add_item st item now).2 = st := by
  by_cases h1 : st.conn = true
  · by_cases h2 :
      (idConflict st.items item.id || hashConflict st.items item.content_hash) = true
    · simp [add_item, h1, h2]
    · simp [add_item, h1, h2] at h
  · have h0 : st.conn = false := by simpa using h1
    simp [add_item, h0]

theorem on_item_received_unknown (svc : ServiceState) (item : ClipboardItem)
    (pid : String) (now : Int) (h : get_device svc.db pid = none) :
    on_item_received svc item pid now = (svc, Effects.nil) := by
  unfold on_item_received
  rw [h]
  split <;> rfl

theorem on_item_received_untrusted (svc : ServiceState) (item : ClipboardItem)
    (pid : String) (now : Int) (dev : Device)
    (hdev : get_device svc.db pid = some dev) (htr : dev.is_trusted = false) :
    on_item_received svc item pid now = (svc, Effects.nil) := by
  unfold on_item_received
  rw [hdev]
  simp [htr]

/-! ## C2 -/

/-- A connected database trusting `exDevB`. -/
def exDbB : DbState := { conn := true, items := [], devices := [exDevB] }

/-- A running service: sync enabled, everything allowed up to 1 MB, one
open session to `peerC`, server present. -/
def exSvc : ServiceState :=
  { sync_enabled := true
    config := { sync_text := true, sync_images := true, max_item_size := 1048576 }
    db := exDbB
    sessions := [⟨"peerC", true⟩]
    has_server := true
    ignore_next := false }

/-- A remote-origin text item sent by `devB`. -/
def exRemoteItem : ClipboardItem :=
  { id := "item-r", type := "text", content_hash := "h2"
    origin_device_id := "devB", timestamp := 30, size := 5
    metadata := [], text_content := some "hello", blob_path := none }

/-- C2 counterexample: a remote-origin item from trusted `devB` passes
every gate, `add_item` returns `true` (first occurrence), another
session (`peerC`, not the item's origin) is open — yet
`_on_item_received` performs no rebroadcast at all: `broadcastTo` is
empty where the claim requires it to contain `peerC`. -/
theorem received_item_not_rebroadcast :
    (add_item exSvc.db exRemoteItem 30).1 = true ∧
    (on_item_received exSvc exRemoteItem "devB" 30).2.addItemCalled = true ∧
    exSvc.sessions.map BroadcastSession.peer = ["peerC"] ∧
    "peerC" ≠ exRemoteItem.origin_device_id ∧
    (on_item_received exSvc exRemoteItem "devB" 30).2.broadcastTo = [] ∧
    (on_item_received exSvc exRemoteItem "devB" 30).2.delivered = [] := by
  refine ⟨by decide, by decide, by decide, by decide, by decide, by decide⟩

/-- C2 amended: a false (duplicate) `add_item` result stops all further
action on both paths — no broadcast, no clipboard mutation, no state
change beyond the (unchanged) database.  A true result triggers a
broadcast only on the local-capture path, and there it goes to every
currently open Session (the origin device, being local, holds no
Session); on the remote-receipt path a true result triggers no
rebroadcast to any Session. -/
theorem addItem_result_gates_propagation (st : ServiceState) (item : ClipboardItem)
    (peer : String) (now : Int) :
    (st.sync_enabled = true →
      ¬ st.config.max_item_size < item.size →
      (item.type == "text" && !st.config.sync_text) = false →
      (item.type == "image" && !st.config.sync_images) = false →
      (add_item st.db item now).1 = true →
      st.has_server = true →
      (on_clipboard_captured st item now).2.broadcastTo =
        st.sessions.map BroadcastSession.peer ∧
      (on_clipboard_captured st item now).2.clipboardWrite = none) ∧
    ((add_item st.db item now).1 = false →
      (on_clipboard_captured st item now).1 = st ∧
      (on_clipboard_captured st item now).2.broadcastTo = [] ∧
      (on_clipboard_captured st item now).2.clipboardWrite = none) ∧
    ((on_item_received st item peer now).2.broadcastTo = [] ∧
      (on_item_received st item peer now).2.delivered = []) ∧
    ((add_item st.db item now).1 = false →
      (on_item_received st item peer now).1 = st ∧
      (on_item_received st item peer now).2.clipboardWrite = none) := by
  refine ⟨?_, ?_, ?_, ?_⟩
  · intro hsync hsize htext himg hadd hserver
    simp [on_clipboard_captured, hsync, hsize, htext, himg, hadd, hserver]
  · intro hadd
    have h2 := add_item_false_state st.db item now hadd
    unfold on_clipboard_captured
    split
    · exact ⟨rfl, rfl, rfl⟩
    · split
      · exact ⟨rfl, rfl, rfl⟩
      · split
        · exact ⟨rfl, rfl, rfl⟩
        · split
          · exact ⟨rfl, rfl, rfl⟩
          · simp [hadd, h2, Effects.nil]
  · unfold on_item_received
    split
    · exact ⟨rfl, rfl⟩
    · split
      · exact ⟨rfl, rfl⟩
      · split
        · exact ⟨rfl, rfl⟩
        · split
          · exact ⟨rfl, rfl⟩
          · split
            · exact ⟨rfl, rfl⟩
            · split
              · exact ⟨rfl, rfl⟩
              · split
                · exact ⟨rfl, rfl⟩
                · split
                  · exact ⟨rfl, rfl⟩
                  · exact ⟨rfl, rfl⟩
  · intro hadd
    have h2 := add_item_false_state st.db item now hadd
    unfold on_item_received
    split
    · exact ⟨rfl, rfl⟩
    · split
      · exact ⟨rfl, rfl⟩
      · split
        · exact ⟨rfl, rfl⟩
        · split
          · exact ⟨rfl, rfl⟩
          · split
            · exact ⟨rfl, rfl⟩
            · split
              · simp [h2, Effects.nil]
              · split
                · simp_all [Effects.nil]
                · split
                  · simp_all [Effects.nil]
                  · simp_all [Effects.nil]

/-- C2 witness: on the concrete service, a locally captured fresh item
is broadcast to the open session, and a remotely received fresh item is
not rebroadcast. -/
theorem addItem_result_gates_propagation_witness :
    (on_clipboard_captured exSvc exItem1 10).2.broadcastTo = ["peerC"] ∧
    (on_item_received exSvc exItem1 "devB" 10).2.broadcastTo = [] := by
  have h := addItem_result_gates_propagation exSvc exItem1 "devB" 10
  refine ⟨?_, h.2.2.1.1⟩
  have h1 := h.1 rfl (by decide) (by decide) (by decide) (by decide) rfl
  exact h1.1

/-! ## C6 -/

/-- A remote text item from `devB` far above the 1 MB size ceiling. -/
def exBigItem : ClipboardItem :=
  { id := "item-big", type := "text", content_hash := "h3"
    origin_device_id := "devB", timestamp := 40, size := 99999999
    metadata := [], text_content := some "big", blob_path := none }

/-- C6 counterexample: a remote item whose size exceeds the configured
ceiling, arriving from a trusted device with an allowed type, is not
rejected: `_on_item_received` never checks the size, so `add_item` is
called (and succeeds) and the item is written to the local clipboard. -/
theorem received_oversize_item_accepted :
    exSvc.config.max_item_size < exBigItem.size ∧
    (on_item_received exSvc exBigItem "devB" 40).2.addItemCalled = true ∧
    (add_item exSvc.db exBigItem 40).1 = true ∧
    (on_item_received exSvc exBigItem "devB" 40).2.clipboardWrite =
      some (ClipWrite.text "big") := by
  refine ⟨by decide, by decide, by decide, by decide⟩

/-- C6 amended: on local capture an item exceeding the size ceiling or
with an excluded type is rejected with no `add_item` call, no broadcast
and no clipboard write; on remote receipt an excluded type, an unknown
sender, or an untrusted sender is likewise rejected — but the size
ceiling is not checked on the remote path. -/
theorem item_gating_policy (st : ServiceState) (item : ClipboardItem)
    (peer : String) (now : Int) :
    (st.config.max_item_size < item.size →
      on_clipboard_captured st item now = (st, Effects.nil)) ∧
    ((item.type == "text" && !st.config.sync_text) = true →
      on_clipboard_captured st item now = (st, Effects.nil) ∧
      on_item_received st item peer now = (st, Effects.nil)) ∧
    ((item.type == "image" && !st.config.sync_images) = true →
      on_clipboard_captured st item now = (st, Effects.nil) ∧
      on_item_received st item peer now = (st, Effects.nil)) ∧
    (get_device st.db peer = none →
      on_item_received st item peer now = (st, Effects.nil)) ∧
    (∀ dev : Device, get_device st.db peer = some dev → dev.is_trusted = false →
      on_item_received st item peer now = (st, Effects.nil)) := by
  refine ⟨?_, ?_, ?_, ?_, ?_⟩
  · intro h
    simp [on_clipboard_captured, h]
  · intro h
    refine ⟨by simp [on_clipboard_captured, h], ?_⟩
    cases hdev : get_device st.db peer with
    | none => exact on_item_received_unknown st item peer now hdev
    | some dev =>
      by_cases htr : dev.is_trusted = true
      · unfold on_item_received
        rw [hdev]
        simp [h, htr]
      · exact on_item_received_untrusted st item peer now dev hdev (by simpa using htr)
  · intro h
    refine ⟨by simp [on_clipboard_captured, h], ?_⟩
    cases hdev : get_device st.db peer with
    | none => exact on_item_received_unknown st item peer now hdev
    | some dev =>
      by_cases htr : dev.is_trusted = true
      · unfold on_item_received
        rw [hdev]
        simp [h, htr]
      · exact on_item_received_untrusted st item peer now dev hdev (by simpa using htr)
  · intro h
    exact on_item_received_unknown st item peer now h
  · intro dev h1 h2
    exact on_item_received_untrusted st item peer now dev h1 h2

/-- A service configured to exclude images from sync. -/
def exSvcNoImg : ServiceState :=
  { exSvc with
    config := { sync_text := true, sync_images := false, max_item_size := 1048576 } }

/-- A remote image item from `devB`. -/
def exImgItem : ClipboardItem :=
  { id := "item-img", type := "image", content_hash := "h4"
    origin_device_id := "devB", timestamp := 41, size := 200
    metadata := [], text_content := none, blob_path := some "b.png" }

/-- C6 witness: an oversized local capture is dropped; a remote image
is dropped when images are excluded by policy; a remote item from an
unknown sender is dropped. -/
theorem item_gating_policy_witness :
    on_clipboard_captured exSvc exBigItem 40 = (exSvc, Effects.nil) ∧
    on_item_received exSvcNoImg exImgItem "devB" 41 = (exSvcNoImg, Effects.nil) ∧
    on_item_received exSvc exRemoteItem "peerX" 42 = (exSvc, Effects.nil) := by
  have h1 := item_gating_policy exSvc exBigItem "devB" 40
  have h2 := item_gating_policy exSvcNoImg exImgItem "devB" 41
  have h3 := item_gating_policy exSvc exRemoteItem "peerX" 42
  exact ⟨h1.1 (by decide), (h2.2.2.1 (by decide)).2, h3.2.2.2.1 (by decide)⟩

/-! ## C9 -/

/-- C9: `revoke_device` on a connected ledger clears the trusted flag of
every row with the given id while keeping the connection, the item table
and the rest of each device record intact and deleting no record; after
revocation, any remote receipt from that device — like any receipt from
an unknown device — is rejected at the orchestration gate with no
`add_item` call, no ledger mutation and no clipboard write. -/
theorem revoke_device_spec (st : DbState) (did : String) (hconn : st.conn = true) :
    (revoke_device st did).conn = st.conn ∧
    (revoke_device st did).items = st.items ∧
    (revoke_device st did).devices.length = st.devices.length ∧
    (∀ d ∈ st.devices, d.id ≠ did → d ∈ (revoke_device st did).devices) ∧
    (∀ d ∈ st.devices, d.id = did →
      { d with is_trusted := false } ∈ (revoke_device st did).devices) ∧
    (∀ d ∈ (revoke_device st did).devices, d.id = did → d.is_trusted = false) ∧
    (∀ svc : ServiceState, ∀ item : ClipboardItem, ∀ now : Int,
      svc.db = revoke_device st did →
      on_item_received svc item did now = (svc, Effects.nil)) ∧
    (∀ svc : ServiceState, ∀ item : ClipboardItem, ∀ pid : String, ∀ now : Int,
      get_device svc.db pid = none →
      on_item_received svc item pid now = (svc, Effects.nil)) := by
  have hrev : revoke_device st did =
      { st with
        devices := st.devices.map fun x =>
          if x.id == did then { x with is_trusted := false } else x } := by
    simp [revoke_device, hconn]
  have hprop : ∀ d ∈ (revoke_device st did).devices, d.id = did →
      d.is_trusted = false := by
    intro d hd hid
    rw [hrev] at hd
    obtain ⟨d0, hd0, heq⟩ := List.mem_map.mp hd
    by_cases h0 : d0.id = did
    · rw [if_pos (by simp [h0])] at heq
      rw [← heq]
    · rw [if_neg (by simp [h0])] at heq
      rw [← heq] at hid
      exact absurd hid h0
  have hreject : ∀ svc : ServiceState, ∀ item : ClipboardItem, ∀ now : Int,
      svc.db = revoke_device st did →
      on_item_received svc item did now = (svc, Effects.nil) := by
    intro svc item now hdb
    cases hdev : get_device svc.db did with
    | none => exact on_item_received_unknown svc item did now hdev
    | some dev =>
      refine on_item_received_untrusted svc item did now dev hdev ?_
      have hconn2 : svc.db.conn = true := by
        rw [hdb, hrev]
        exact hconn
      simp only [get_device, hconn2, Bool.not_true, Bool.false_eq_true,
        if_false] at hdev
      have hmem := List.mem_of_find?_eq_some hdev
      have hpred := List.find?_some hdev
      rw [hdb] at hmem
      exact hprop dev hmem (by simpa using hpred)
  refine ⟨by rw [hrev], by rw [hrev], ?_, ?_, ?_, hprop, hreject, ?_⟩
  · rw [hrev]
    simp
  · intro d hd hne
    rw [hrev]
    exact List.mem_map.mpr ⟨d, hd, by simp [hne]⟩
  · intro d hd he
    rw [hrev]
    exact List.mem_map.mpr ⟨d, hd, by simp [he]⟩
  · intro svc item pid now h
    exact on_item_received_unknown svc item pid now h

/-- The running service after `devB` has been revoked. -/
def exSvcRevoked : ServiceState := { exSvc with db := revoke_device exDbB "devB" }

/-- C9 witness: revoking `devB` keeps the stored items and the (now
untrusted) device record, and a subsequent receipt from `devB` is a
complete no-op. -/
theorem revoke_device_spec_witness :
    (revoke_device exDbB "devB").items = exDbB.items ∧
    ({ exDevB with is_trusted := false } ∈ (revoke_device exDbB "devB").devices) ∧
    on_item_received exSvcRevoked exRemoteItem "devB" 50 = (exSvcRevoked, Effects.nil) := by
  have h := revoke_device_spec exDbB "devB" rfl
  exact ⟨h.2.1, h.2.2.2.2.1 exDevB (by decide) rfl,
    h.2.2.2.2.2.2.1 exSvcRevoked exRemoteItem 50 rfl⟩
